import Mathlib

/-
Verification of the core game logic of a Flappy-Bird clone
(src/src/hooks/useGameLogic.ts). All numeric quantities are modelled
over the rationals; scores are natural numbers. The per-frame update
(gameLoop), the collision test (checkCollision), the spawner
(generatePipe), the pruning filter, the input handlers and the mute
toggle are embedded as pure functions, following the source line by
line. React state updates become explicit state passing; the stale
closure read of the score in the game-over branch (line 217 of the
source) is reproduced faithfully: the high-score update uses the score
as it was at the start of the frame, while the score itself is updated
with the functional updater and so includes increments made during the
frame.
-/

namespace FloopyBird

/-- Game constants from the top of useGameLogic.ts. -/
def GRAVITY : ℚ := 4/10

def JUMP_FORCE : ℚ := -8

def BIRD_SIZE : ℚ := 30

def PIPE_WIDTH : ℚ := 60

def PIPE_GAP : ℚ := 170

def PIPE_SPEED : ℚ := 5/2

/-- The canvas is declared 400x600 in the Game component. -/
def CANVAS_WIDTH : ℚ := 400

def CANVAS_HEIGHT : ℚ := 600

/-- The spawn interval in milliseconds (gameLoop line 198). -/
def SPAWN_INTERVAL : ℚ := 1800

/-- The bird state (interface Bird): vertical position, vertical
velocity and visual rotation. The horizontal position is the fixed
constant 50. -/
structure Bird where
  y : ℚ
  velocity : ℚ
  rotation : ℚ
deriving DecidableEq, Repr

/-- An obstacle (interface Pipe): horizontal position, height of the
top segment, and the scored flag. -/
structure Pipe where
  x : ℚ
  topHeight : ℚ
  passed : Bool
deriving DecidableEq, Repr

/-- The game state enumeration: idle, playing, gameOver. -/
inductive GameState where
  | idle
  | playing
  | gameOver
deriving DecidableEq, Repr

/-- An axis-aligned box, as built inside checkCollision. -/
structure Box where
  top : ℚ
  bottom : ℚ
  left : ℚ
  right : ℚ
deriving DecidableEq, Repr

/-- The bird bounding box shrunk by 5 on all sides (checkCollision,
lines 104-109); the bird is drawn at horizontal position 50. -/
def birdBox (bird : Bird) : Box :=
  ⟨bird.y + 5, bird.y + BIRD_SIZE - 5, 50 + 5, 50 + BIRD_SIZE - 5⟩

/-- The top pipe segment box (checkCollision, lines 111-116). -/
def topPipeBox (pipe : Pipe) : Box :=
  ⟨0, pipe.topHeight, pipe.x, pipe.x + PIPE_WIDTH⟩

/-- The bottom pipe segment box (checkCollision, lines 118-123). -/
def bottomPipeBox (pipe : Pipe) : Box :=
  ⟨pipe.topHeight + PIPE_GAP, CANVAS_HEIGHT, pipe.x, pipe.x + PIPE_WIDTH⟩

/-- The inner AABB test (checkCollision, lines 125-132): boxes collide
unless they are separated on one axis (all comparisons strict, so
touching boxes count as colliding). -/
def collidesWithPipe (box pipeBox : Box) : Bool :=
  !(decide (box.right < pipeBox.left) || decide (box.left > pipeBox.right) ||
    decide (box.bottom < pipeBox.top) || decide (box.top > pipeBox.bottom))

/-- checkCollision (lines 103-140): the shrunk bird box against both
segments, plus the unshrunk out-of-bounds checks. -/
def checkCollision (bird : Bird) (pipe : Pipe) : Bool :=
  collidesWithPipe (birdBox bird) (topPipeBox pipe) ||
  collidesWithPipe (birdBox bird) (bottomPipeBox pipe) ||
  decide (bird.y ≤ 0) ||
  decide (bird.y + BIRD_SIZE ≥ CANVAS_HEIGHT)

/-- generatePipe (lines 91-101); the random draw r stands for
Math.random(), so r is in the interval from 0 inclusive to 1
exclusive. minHeight = 100, maxHeight = 600 - 170 - 100 = 330. -/
def generatePipe (r : ℚ) : Pipe :=
  let minHeight : ℚ := 100
  let maxHeight : ℚ := CANVAS_HEIGHT - PIPE_GAP - minHeight
  ⟨CANVAS_WIDTH, r * (maxHeight - minHeight) + minHeight, false⟩

/-- The physics update at the top of gameLoop (lines 189-194):
velocity += GRAVITY; y += velocity; rotation smoothed toward
velocity * 0.04 with factor 0.1. -/
def updateBird (b : Bird) : Bird :=
  let v := b.velocity + GRAVITY
  let y := b.y + v
  let target := v * (4/100)
  ⟨y, v, b.rotation + (target - b.rotation) * (1/10)⟩

/-- The spawn step of gameLoop (lines 197-201): if more than the
interval elapsed since the last spawn, push a fresh pipe and record
the time. Returns the new pipe list and last-spawn time. -/
def spawnCheck (pipes : List Pipe) (lastSpawn now r : ℚ) : List Pipe × ℚ :=
  if now - lastSpawn > SPAWN_INTERVAL then (pipes ++ [generatePipe r], now)
  else (pipes, lastSpawn)

/-- The pruning filter of gameLoop (line 203): keep pipes with
x > -PIPE_WIDTH. -/
def prunePipes (pipes : List Pipe) : List Pipe :=
  pipes.filter (fun p => decide (p.x > -PIPE_WIDTH))

/-- One iteration of the forEach body of gameLoop (lines 204-212):
move the pipe left by PIPE_SPEED, then, if it is not yet passed and
its right edge is strictly left of position 50, set the flag and
increment the score. -/
def stepPipe (p : Pipe) (score : ℕ) : Pipe × ℕ :=
  let x := p.x - PIPE_SPEED
  if p.passed = false ∧ x + PIPE_WIDTH < 50 then
    (⟨x, p.topHeight, true⟩, score + 1)
  else
    (⟨x, p.topHeight, p.passed⟩, score)

/-- The whole forEach loop (lines 204-212), threading the score left
to right through the pipe list. -/
def movePipes (ps : List Pipe) (score : ℕ) : List Pipe × ℕ :=
  match ps with
  | [] => ([], score)
  | p :: rest =>
    let q := stepPipe p score
    let r := movePipes rest q.2
    (q.1 :: r.1, r.2)

/-- The whole mutable per-run state threaded through one gameLoop
invocation. -/
structure GameSnap where
  bird : Bird
  pipes : List Pipe
  score : ℕ
  highScore : ℕ
  gameState : GameState
  lastSpawn : ℚ
deriving DecidableEq, Repr

/-- One invocation of gameLoop (lines 182-259) as a pure state
transformer. Order of operations follows the source: early return
unless playing; physics update; spawn check; pruning filter; move and
score each pipe; collision check over the resulting list. On a
collision the state becomes gameOver and the high score is updated
with the stale closure value of the score, i.e. the score as of the
start of the frame, not including increments made during this frame;
the score state itself is updated via the functional updater and so
does include them. Drawing and rescheduling have no effect on the
modelled state. -/
def gameLoopStep (g : GameSnap) (now r : ℚ) : GameSnap :=
  if g.gameState = GameState.playing then
    let bird := updateBird g.bird
    let sp := spawnCheck g.pipes g.lastSpawn now r
    let pruned := prunePipes sp.1
    let mv := movePipes pruned g.score
    if mv.1.any (fun p => checkCollision bird p) then
      ⟨bird, mv.1, mv.2, max g.highScore g.score, GameState.gameOver, sp.2⟩
    else
      ⟨bird, mv.1, mv.2, g.highScore, GameState.playing, sp.2⟩
  else g

/-- handleClick (lines 285-290): while playing, set the velocity to
JUMP_FORCE; in any other state the bird is untouched. -/
def handleClick (state : GameState) (b : Bird) : Bird :=
  if state = GameState.playing then ⟨b.y, JUMP_FORCE, b.rotation⟩ else b

/-- handleKeyPress (lines 292-296): the Space key behaves exactly like
a click; any other key does nothing. -/
def handleKeyPress (code : String) (state : GameState) (b : Bird) : Bird :=
  if code = "Space" then handleClick state b else b

/-- The audio state visible to toggleMute: the mute flag and whether
the background loop has been told to play. -/
structure AudioState where
  isMuted : Bool
  bgmPlaying : Bool
deriving DecidableEq, Repr

/-- toggleMute (lines 77-89): flip the flag; when newly muted, pause
the background loop; when newly unmuted, issue a play request on the
background loop. The source never consults the game state here. -/
def toggleMute (a : AudioState) : AudioState :=
  let newMuted := !a.isMuted
  if newMuted then ⟨newMuted, false⟩ else ⟨newMuted, true⟩

/-- Spec-side notion, for comparison with the code: two closed
intervals overlap when each lower end is at most the other upper
end. -/
def intervalsOverlap (lo1 hi1 lo2 hi2 : ℚ) : Prop :=
  lo1 ≤ hi2 ∧ lo2 ≤ hi1

/-- Spec-side notion: two boxes overlap when their projections
overlap on both axes. -/
def boxesOverlap (a b : Box) : Prop :=
  intervalsOverlap a.left a.right b.left b.right ∧
  intervalsOverlap a.top a.bottom b.top b.bottom

/-- Iterating the per-frame pipe step, for statements about all later
frames of a single pipe. -/
def iterPipe : ℕ → Pipe → ℕ → Pipe × ℕ
  | 0, p, s => (p, s)
  | n + 1, p, s => iterPipe n (stepPipe p s).1 (stepPipe p s).2

/-- The invariant relating the passed flag to the pipe position: a
passed pipe has its right edge strictly left of the bird slot 50. -/
def passedInv (p : Pipe) : Prop :=
  p.passed = true → p.x + PIPE_WIDTH < 50

theorem collidesWithPipe_iff (a b : Box) :
    collidesWithPipe a b = true ↔ boxesOverlap a b := by
  simp only [collidesWithPipe, boxesOverlap, intervalsOverlap, Bool.not_eq_true',
    Bool.or_eq_false_iff, decide_eq_false_iff_not, not_lt]
  constructor
  · rintro ⟨⟨⟨h1, h2⟩, h3⟩, h4⟩
    exact ⟨⟨h2, h1⟩, ⟨h4, h3⟩⟩
  · rintro ⟨⟨h2, h1⟩, h4, h3⟩
    exact ⟨⟨⟨h1, h2⟩, h3⟩, h4⟩

theorem checkCollision_iff (bird : Bird) (pipe : Pipe) :
    checkCollision bird pipe = true ↔
      boxesOverlap (birdBox bird) (topPipeBox pipe) ∨
      boxesOverlap (birdBox bird) (bottomPipeBox pipe) ∨
      bird.y ≤ 0 ∨ bird.y + BIRD_SIZE ≥ CANVAS_HEIGHT := by
  simp only [checkCollision, Bool.or_eq_true, decide_eq_true_eq,
    collidesWithPipe_iff, ge_iff_le, or_assoc]

theorem checkCollision_of_out_of_bounds (bird : Bird) (pipe : Pipe)
    (h : bird.y ≤ 0 ∨ bird.y + BIRD_SIZE ≥ CANVAS_HEIGHT) :
    checkCollision bird pipe = true :=
  (checkCollision_iff bird pipe).mpr (Or.inr (Or.inr h))

theorem movePipes_length (ps : List Pipe) : ∀ s : ℕ,
    (movePipes ps s).1.length = ps.length := by
  induction ps with
  | nil => intro s; rfl
  | cons p rest ih => intro s; simp [movePipes, ih]

theorem stepPipe_of_passed (p : Pipe) (s : ℕ) (h : p.passed = true) :
    stepPipe p s = (⟨p.x - PIPE_SPEED, p.topHeight, true⟩, s) := by
  simp [stepPipe, h]

theorem iterPipe_of_passed : ∀ (n : ℕ) (p : Pipe) (s : ℕ), p.passed = true →
    (iterPipe n p s).1.passed = true ∧ (iterPipe n p s).2 = s := by
  intro n
  induction n with
  | zero => intro p s h; exact ⟨h, rfl⟩
  | succ n ih =>
    intro p s h
    rw [iterPipe, stepPipe_of_passed p s h]
    exact ih _ s rfl

/-- C5: on every playing frame with no impulse, the gravity
integration gives velocity + GRAVITY as the new velocity and adds the
new velocity to the position; from position 300 and velocity 0 one
frame yields velocity 0.4 and position 300.4. -/
theorem c5_gravity_integration (b : Bird) :
    GRAVITY = 0.4 ∧
    (updateBird b).velocity = b.velocity + GRAVITY ∧
    (updateBird b).y = b.y + (b.velocity + GRAVITY) ∧
    (updateBird ⟨300, 0, 0⟩).velocity = 0.4 ∧
    (updateBird ⟨300, 0, 0⟩).y = 300.4 := by
  refine ⟨by norm_num [GRAVITY], rfl, rfl, ?_, ?_⟩ <;>
    norm_num [updateBird, GRAVITY]

/-- C6: an impulse (click, or the Space key which is routed to the
click handler) sets the vertical velocity to exactly JUMP_FORCE = -8
while playing, and leaves the bird completely unchanged in the idle
and gameOver states. -/
theorem c6_impulse (st : GameState) (b : Bird) :
    JUMP_FORCE = -8 ∧
    (st = GameState.playing → handleClick st b = ⟨b.y, JUMP_FORCE, b.rotation⟩) ∧
    (st ≠ GameState.playing → handleClick st b = b) ∧
    handleKeyPress "Space" st b = handleClick st b := by
  refine ⟨rfl, ?_, ?_, by simp [handleKeyPress]⟩
  · intro h; simp [handleClick, h]
  · intro h; simp [handleClick, h]

theorem c6_impulse_witness :
    GameState.idle ≠ GameState.playing ∧
    handleClick GameState.playing ⟨300, 5, 0⟩ = ⟨300, JUMP_FORCE, 0⟩ ∧
    handleClick GameState.idle ⟨300, 5, 0⟩ = ⟨300, 5, 0⟩ :=
  ⟨by simp, (c6_impulse GameState.playing ⟨300, 5, 0⟩).2.1 rfl,
    (c6_impulse GameState.idle ⟨300, 5, 0⟩).2.2.1 (by simp)⟩

/-- C3: checkCollision returns true exactly when the shrunk bird box
overlaps the top segment box or the bottom segment box on both axes,
or the unshrunk bird box is at or past the top or bottom world bound;
in particular it returns false whenever the obstacle has topHeight 200
(gap 170 on the 600-tall surface) and the unshrunk bird box lies
between 205 and 365. -/
theorem c3_checkCollision_spec (bird : Bird) (pipe : Pipe) :
    (checkCollision bird pipe = true ↔
      boxesOverlap (birdBox bird) (topPipeBox pipe) ∨
      boxesOverlap (birdBox bird) (bottomPipeBox pipe) ∨
      bird.y ≤ 0 ∨ bird.y + BIRD_SIZE ≥ CANVAS_HEIGHT) ∧
    (pipe.topHeight = 200 → 205 ≤ bird.y → bird.y + 30 ≤ 365 →
      checkCollision bird pipe = false) := by
  refine ⟨checkCollision_iff bird pipe, ?_⟩
  intro htop h1 h2
  rw [Bool.eq_false_iff]
  intro hcol
  rcases (checkCollision_iff bird pipe).mp hcol with h | h | h | h
  · rcases h with ⟨-, hv⟩
    simp only [boxesOverlap, intervalsOverlap, birdBox, topPipeBox, htop] at hv
    have := hv.1
    simp only at this
    linarith
  · rcases h with ⟨-, hv⟩
    simp only [boxesOverlap, intervalsOverlap, birdBox, bottomPipeBox, htop,
      PIPE_GAP, CANVAS_HEIGHT, BIRD_SIZE] at hv
    have := hv.2
    simp only at this
    linarith
  · linarith
  · simp only [BIRD_SIZE, CANVAS_HEIGHT, ge_iff_le] at h
    linarith

theorem c3_checkCollision_spec_witness :
    checkCollision ⟨300, 0, 0⟩ ⟨50, 200, false⟩ = false :=
  (c3_checkCollision_spec ⟨300, 0, 0⟩ ⟨50, 200, false⟩).2 rfl
    (by norm_num) (by norm_num)

/-- C4: in the per-pipe frame step, the score increments by exactly 1
and the passed flag flips to true on the first frame in which the
moved pipe right edge is strictly left of 50 while the flag is still
false; a passed pipe keeps its flag forever and contributes no score
increment on this or any later frame; an unpassed pipe that has not
crossed keeps flag false and score unchanged. -/
theorem c4_score_once (p : Pipe) (s : ℕ) :
    (p.passed = false → p.x - PIPE_SPEED + PIPE_WIDTH < 50 →
      stepPipe p s = (⟨p.x - PIPE_SPEED, p.topHeight, true⟩, s + 1)) ∧
    (p.passed = true →
      stepPipe p s = (⟨p.x - PIPE_SPEED, p.topHeight, true⟩, s)) ∧
    (p.passed = false → ¬(p.x - PIPE_SPEED + PIPE_WIDTH < 50) →
      stepPipe p s = (⟨p.x - PIPE_SPEED, p.topHeight, false⟩, s)) ∧
    (p.passed = true → ∀ n : ℕ,
      (iterPipe n p s).1.passed = true ∧ (iterPipe n p s).2 = s) := by
  refine ⟨?_, fun h => stepPipe_of_passed p s h, ?_,
    fun h n => iterPipe_of_passed n p s h⟩
  · intro h hx; simp [stepPipe, h, hx]
  · intro h hx; simp [stepPipe, h, hx]

theorem c4_score_once_witness :
    stepPipe ⟨-10, 200, false⟩ 0 = (⟨-10 - PIPE_SPEED, 200, true⟩, 1) ∧
    (iterPipe 5 ⟨0, 200, true⟩ 3).2 = 3 := by
  refine ⟨(c4_score_once ⟨-10, 200, false⟩ 0).1 rfl ?_,
    ((c4_score_once ⟨0, 200, true⟩ 3).2.2.2 rfl 5).2⟩
  norm_num [PIPE_SPEED, PIPE_WIDTH]

/-- C8: every spawned pipe sits at the right edge x = 400; for any
random draw r in the interval from 0 inclusive to 1 exclusive its
topHeight lies in the closed interval from 100 to 330, the bottom
segment (600 - 170 - topHeight) is at least 100, and the gap between
the two segment boxes is exactly PIPE_GAP = 170; the spawn step
appends a pipe exactly when the elapsed time since the last spawn
exceeds SPAWN_INTERVAL. -/
theorem c8_spawner (r : ℚ) (pipes : List Pipe) (last now : ℚ) :
    (0 ≤ r → r < 1 →
      (generatePipe r).x = CANVAS_WIDTH ∧
      100 ≤ (generatePipe r).topHeight ∧
      (generatePipe r).topHeight ≤ 330 ∧
      100 ≤ CANVAS_HEIGHT - PIPE_GAP - (generatePipe r).topHeight ∧
      (bottomPipeBox (generatePipe r)).top - (topPipeBox (generatePipe r)).bottom
        = PIPE_GAP) ∧
    (¬(now - last > SPAWN_INTERVAL) → spawnCheck pipes last now r = (pipes, last)) ∧
    (now - last > SPAWN_INTERVAL →
      spawnCheck pipes last now r = (pipes ++ [generatePipe r], now)) := by
  refine ⟨?_, ?_, ?_⟩
  · intro h0 h1
    have h230 : r * 230 ≤ 230 := by nlinarith
    have h0' : 0 ≤ r * 230 := by positivity
    refine ⟨rfl, ?_, ?_, ?_, ?_⟩
    · simp only [generatePipe, CANVAS_HEIGHT, PIPE_GAP]
      norm_num
      linarith
    · simp only [generatePipe, CANVAS_HEIGHT, PIPE_GAP]
      norm_num
      linarith
    · simp only [generatePipe, CANVAS_HEIGHT, PIPE_GAP]
      norm_num
      linarith
    · simp only [bottomPipeBox, topPipeBox]
      ring
  · intro h; simp [spawnCheck, h]
  · intro h; simp [spawnCheck, h]

theorem c8_spawner_witness :
    (0 : ℚ) ≤ 1/2 ∧ (1/2 : ℚ) < 1 ∧
    (generatePipe (1/2)).x = CANVAS_WIDTH ∧
    100 ≤ (generatePipe (1/2)).topHeight ∧
    (generatePipe (1/2)).topHeight ≤ 330 ∧
    ¬((1000 : ℚ) - 0 > SPAWN_INTERVAL) ∧
    spawnCheck [] 0 1000 (1/2) = ([], 0) ∧
    ((2000 : ℚ) - 0 > SPAWN_INTERVAL) ∧
    spawnCheck [] 0 2000 (1/2) = ([generatePipe (1/2)], 2000) := by
  have h1 := (c8_spawner (1/2) [] 0 1000).1 (by norm_num) (by norm_num)
  have h2 := (c8_spawner (1/2) [] 0 1000).2.1 (by norm_num [SPAWN_INTERVAL])
  have h3 := (c8_spawner (1/2) [] 0 2000).2.2 (by norm_num [SPAWN_INTERVAL])
  refine ⟨by norm_num, by norm_num, h1.1, h1.2.1, h1.2.2.1,
    by norm_num [SPAWN_INTERVAL], h2, by norm_num [SPAWN_INTERVAL], by simpa using h3⟩

/-- C9: the per-frame pruning is the order-preserving filter keeping
exactly the pipes with x > -PIPE_WIDTH = -60: the result is a sublist
of the input, a pipe is in the result iff it is in the input with
x > -60, and any pipe with x ≤ -60 is removed. -/
theorem c9_prune (pipes : List Pipe) (p : Pipe) :
    List.Sublist (prunePipes pipes) pipes ∧
    (p ∈ prunePipes pipes ↔ p ∈ pipes ∧ p.x > -PIPE_WIDTH) ∧
    (p ∈ pipes → p.x ≤ -PIPE_WIDTH → p ∉ prunePipes pipes) := by
  refine ⟨List.filter_sublist pipes, ?_, ?_⟩
  · simp [prunePipes, List.mem_filter]
  · intro hmem hx hin
    have := (List.mem_filter.mp hin).2
    simp only [decide_eq_true_eq] at this
    exact absurd this (not_lt.mpr hx)

theorem c9_prune_witness :
    prunePipes [⟨-60, 200, false⟩] = [] ∧
    (⟨-60, 200, false⟩ : Pipe) ∉ prunePipes [⟨-60, 200, false⟩] ∧
    (⟨400, 200, false⟩ : Pipe) ∈ prunePipes [⟨400, 200, false⟩] := by
  refine ⟨?_, ?_, ?_⟩
  · simp [prunePipes, PIPE_WIDTH]
  · exact (c9_prune [⟨-60, 200, false⟩] ⟨-60, 200, false⟩).2.2 (by simp)
      (by norm_num [PIPE_WIDTH])
  · exact (c9_prune [⟨400, 200, false⟩] ⟨400, 200, false⟩).2.1.mpr
      ⟨by simp, by norm_num [PIPE_WIDTH]⟩

/-- C10: the frame step preserves the invariant that a passed pipe has
its right edge strictly left of 50; and for a passed pipe under that
invariant, both pipe-overlap disjuncts of checkCollision are false for
every bird, so checkCollision can only return true through the
world-bounds checks. -/
theorem c10_passed_pipes_safe (p : Pipe) (s : ℕ) (bird : Bird) :
    (passedInv p → passedInv (stepPipe p s).1) ∧
    (p.passed = true → p.x + PIPE_WIDTH < 50 →
      collidesWithPipe (birdBox bird) (topPipeBox p) = false ∧
      collidesWithPipe (birdBox bird) (bottomPipeBox p) = false ∧
      (checkCollision bird p = true ↔
        bird.y ≤ 0 ∨ bird.y + BIRD_SIZE ≥ CANVAS_HEIGHT)) := by
  constructor
  · intro hinv
    by_cases hc : p.passed = false ∧ p.x - PIPE_SPEED + PIPE_WIDTH < 50
    · intro _
      simp only [stepPipe, if_pos hc]
      exact hc.2
    · simp only [stepPipe, if_neg hc]
      intro hpassed
      have := hinv hpassed
      simp only [PIPE_SPEED] at this ⊢
      linarith
  · intro hp hx
    have hleft : (birdBox bird).left > (topPipeBox p).right := by
      simp only [birdBox, topPipeBox, BIRD_SIZE, PIPE_WIDTH] at hx ⊢
      linarith
    have htop : collidesWithPipe (birdBox bird) (topPipeBox p) = false := by
      have h2 : decide ((birdBox bird).left > (topPipeBox p).right) = true :=
        decide_eq_true hleft
      simp only [collidesWithPipe, h2, Bool.or_true, Bool.true_or, Bool.not_true]
    have hbot : collidesWithPipe (birdBox bird) (bottomPipeBox p) = false := by
      have hleft2 : (birdBox bird).left > (bottomPipeBox p).right := by
        simp only [birdBox, bottomPipeBox, BIRD_SIZE, PIPE_WIDTH] at hx ⊢
        linarith
      have h2 : decide ((birdBox bird).left > (bottomPipeBox p).right) = true :=
        decide_eq_true hleft2
      simp only [collidesWithPipe, h2, Bool.or_true, Bool.true_or, Bool.not_true]
    refine ⟨htop, hbot, ?_⟩
    simp only [checkCollision, htop, hbot, Bool.false_or, Bool.or_eq_true,
      decide_eq_true_eq, ge_iff_le]

theorem c10_passed_pipes_safe_witness :
    collidesWithPipe (birdBox ⟨300, 0, 0⟩) (topPipeBox ⟨-15, 200, true⟩) = false ∧
    collidesWithPipe (birdBox ⟨300, 0, 0⟩) (bottomPipeBox ⟨-15, 200, true⟩) = false := by
  have h := (c10_passed_pipes_safe ⟨-15, 200, true⟩ 0 ⟨300, 0, 0⟩).2 rfl
    (by norm_num [PIPE_WIDTH])
  exact ⟨h.1, h.2.1⟩

/-- C7 counterexample: with the game in the idle state, toggling mute
from muted to unmuted still issues a play request on the background
loop, because toggleMute never consults the game state; the claim
says the loop must not start outside the playing state. -/
theorem c7_counterexample :
    GameState.idle ≠ GameState.playing ∧
    (⟨true, false⟩ : AudioState).isMuted = true ∧
    (toggleMute ⟨true, false⟩).bgmPlaying = true := by
  refine ⟨by simp, rfl, by simp [toggleMute]⟩

/-- C7 (amended): toggling mute from muted to unmuted always issues a
play request on the background loop, regardless of the game state,
and toggling from unmuted to muted always pauses it. -/
theorem c7_toggleMute (a : AudioState) :
    (a.isMuted = true → toggleMute a = ⟨false, true⟩) ∧
    (a.isMuted = false → toggleMute a = ⟨true, false⟩) := by
  constructor <;> · intro h; simp [toggleMute, h]

theorem c7_toggleMute_witness :
    toggleMute ⟨false, true⟩ = ⟨true, false⟩ :=
  (c7_toggleMute ⟨false, true⟩).2 rfl

theorem movePipes_any_collision (bird : Bird) (ps : List Pipe) (s : ℕ)
    (hne : ps ≠ [])
    (hall : ∀ q : Pipe, checkCollision bird q = true) :
    (movePipes ps s).1.any (fun p => checkCollision bird p) = true := by
  cases ps with
  | nil => exact absurd rfl hne
  | cons p rest => simp [movePipes, hall]

/-- C1 counterexample: with the bird already past the bottom bound
(y = 600, so y + 30 >= 600 both before and after the physics update)
but an empty obstacle collection, the frame leaves the state playing:
the world-bound check lives inside the per-pipe collision test, and
List.any over an empty list is false, so no game-over transition
happens. The claim says the transition happens even with an empty
collection. -/
theorem c1_counterexample :
    ((600 : ℚ) + BIRD_SIZE ≥ CANVAS_HEIGHT) ∧
    (⟨⟨600, 0, 0⟩, [], 0, 0, GameState.playing, 0⟩ : GameSnap).pipes = [] ∧
    (gameLoopStep ⟨⟨600, 0, 0⟩, [], 0, 0, GameState.playing, 0⟩ 0 0).gameState
      = GameState.playing := by
  refine ⟨by norm_num [BIRD_SIZE, CANVAS_HEIGHT], rfl, ?_⟩
  norm_num [gameLoopStep, spawnCheck, prunePipes, movePipes, SPAWN_INTERVAL]

/-- C1 (amended): while playing, on any frame in which the updated
bird is at or past a vertical world bound, the frame transitions to
gameOver provided at least one obstacle survives the pruning filter
(x > -PIPE_WIDTH); with an empty obstacle collection no collision is
reported and the state stays playing. -/
theorem c1_boundary_gameOver (g : GameSnap) (now r : ℚ) (p : Pipe)
    (hplay : g.gameState = GameState.playing)
    (hmem : p ∈ g.pipes) (hx : p.x > -PIPE_WIDTH)
    (hout : (updateBird g.bird).y ≤ 0 ∨
      (updateBird g.bird).y + BIRD_SIZE ≥ CANVAS_HEIGHT) :
    (gameLoopStep g now r).gameState = GameState.gameOver := by
  have hall : ∀ q : Pipe, checkCollision (updateBird g.bird) q = true :=
    fun q => checkCollision_of_out_of_bounds _ q hout
  have hmem1 : p ∈ (spawnCheck g.pipes g.lastSpawn now r).1 := by
    unfold spawnCheck
    split
    · exact List.mem_append_left _ hmem
    · exact hmem
  have hmem2 : p ∈ prunePipes (spawnCheck g.pipes g.lastSpawn now r).1 :=
    List.mem_filter.mpr ⟨hmem1, decide_eq_true hx⟩
  have hne : prunePipes (spawnCheck g.pipes g.lastSpawn now r).1 ≠ [] :=
    List.ne_nil_of_mem hmem2
  have hany := movePipes_any_collision (updateBird g.bird) _ g.score hne hall
  simp only [gameLoopStep, hplay, if_true, hany]

theorem c1_boundary_gameOver_witness :
    (gameLoopStep ⟨⟨600, 0, 0⟩, [⟨100, 200, false⟩], 0, 0, GameState.playing, 0⟩
      0 0).gameState = GameState.gameOver :=
  c1_boundary_gameOver _ 0 0 ⟨100, 200, false⟩ rfl (by simp)
    (by norm_num [PIPE_WIDTH])
    (Or.inr (by norm_num [updateBird, GRAVITY, BIRD_SIZE, CANVAS_HEIGHT]))

/-- The concrete pre-frame state exhibiting the stale high-score
read: the bird one step above the bottom bound, one unpassed pipe
whose right edge crosses 50 on this very frame, score 0, high score
0. -/
def staleSnap : GameSnap :=
  ⟨⟨570, 0, 0⟩, [⟨-10, 200, false⟩], 0, 0, GameState.playing, 0⟩

/-- C2: on the frame in which the pipe is passed (score becomes 1)
and the bird simultaneously hits the bottom bound, the game-over
branch computes the high score from the stale closure value of the
score (0), not the final score (1): the resulting high score 0 is not
max(previous high score 0, final score 1) = 1, contradicting the
stated property. -/
theorem c2_stale_highscore :
    (gameLoopStep staleSnap 0 0).gameState = GameState.gameOver ∧
    (gameLoopStep staleSnap 0 0).score = 1 ∧
    (gameLoopStep staleSnap 0 0).highScore = 0 ∧
    (gameLoopStep staleSnap 0 0).highScore ≠
      max staleSnap.highScore (gameLoopStep staleSnap 0 0).score := by
  norm_num [staleSnap, gameLoopStep, updateBird, spawnCheck, prunePipes,
    movePipes, stepPipe, checkCollision, collidesWithPipe, birdBox,
    topPipeBox, bottomPipeBox, GRAVITY, BIRD_SIZE, PIPE_WIDTH, PIPE_GAP,
    PIPE_SPEED, CANVAS_HEIGHT, SPAWN_INTERVAL]

end FloopyBird

